import Mathlib

/-!
Verification development for the mock-exam application (timed multi-section
test-taking state machine).

The definitions below are a shallow embedding of the TypeScript source:

* data model (`Question`, `SectionItem`, `Section`, `SavedTest`, ...) mirrors
  the `type` declarations at the top of the main source file;
* `parseFloat` models the JavaScript `parseFloat` builtin over exact rationals
  (plus signed infinities); IEEE-754 rounding of the mantissa is not modelled,
  which is irrelevant to the short decimal strings the tests compare;
* `classify` / `scoreTest` embed the per-question classification and scoring
  loop of `confirmAndSubmit`;
* `ViewState` with `tick`, `handleSelectOption`, `handleTitaInputChange`,
  `handleClearResponse`, `handleSaveAndNext`, `handleMarkForReview`,
  `changeSection`, `handleConfirmSectionSwitch` and the submission operations
  embeds the `TestView` component: `store` is the persisted `SavedTest`
  snapshot (what `onUpdate` merges into), the other fields are the component's
  local state (`currentSectionIndex`, `currentQuestionIndex`, `timers`, and
  the two confirmation modals as pending-action fields);
* `retest` / `handleRetest` embed `handleRetest` (the presentational `id` and
  `name` fields of a saved test are omitted from the model);
* `cardIsCorrect` / `cardIsUnattempted` / `cardMarks` embed the classification
  used by `QuestionAnalysisCard`.

JavaScript records indexed by numbers are modelled as total functions with the
record's default (`undefined` read as `false` / missing entry) built in.
-/

namespace CatMocks

/-- Question type tag: multiple choice or type-in-the-answer. -/
inductive QType where
  | MCQ
  | TITA
deriving DecidableEq, Repr

/-- A generated question (source `type Question`). -/
structure Question where
  questionText : String
  options : List String
  correctAnswer : String
  type : QType
deriving DecidableEq, Repr

/-- A section item: a standalone question or a passage group
(source `type SectionItem = Question | PassageGroup`, the union discriminated
by presence of the `passage` field). -/
inductive SectionItem where
  | question (q : Question)
  | group (passage : String) (questions : List Question)
deriving DecidableEq, Repr

/-- A test section (source `type Section`); `timeLimit` is in minutes. -/
structure Section where
  name : String
  timeLimit : Nat
  items : List SectionItem
deriving DecidableEq, Repr

/-- Source `type TestData`. -/
structure TestData where
  sections : List Section
deriving DecidableEq, Repr

/-- Source `type AnswerStatus`. -/
inductive AnswerStatus where
  | notAnswered
  | answered
  | marked
deriving DecidableEq, Repr

/-- Source `type UserAnswer`; `answer = none` is the JS `null`. -/
structure UserAnswer where
  answer : Option String
  status : AnswerStatus
deriving DecidableEq, Repr

/-- Source `type TestType`. -/
inductive TestType where
  | fullMock
  | varc
  | dilr
  | qa
deriving DecidableEq, Repr

/-- Source `type TestStatus`. -/
inductive TestStatus where
  | notStarted
  | inProgress
  | completed
deriving DecidableEq, Repr

/-- Source `type FinalScore`. -/
structure FinalScore where
  score : Int
  correct : Nat
  incorrect : Nat
  attempted : Nat
deriving DecidableEq, Repr

/-- Source `type UserAnswers = Record<number, Record<number, UserAnswer>>`,
modelled as a total function into `Option`: a missing record entry is
`none`. -/
def UserAnswers : Type := Nat → Nat → Option UserAnswer

/-- The persisted test snapshot (source `type SavedTest`).  The purely
presentational `id` and `name` string fields are omitted; `timers` and
`lockedSections` records are total functions (a missing `lockedSections`
entry reads as `false`, like the optional chaining in the source). -/
structure SavedTest where
  type : TestType
  status : TestStatus
  testData : TestData
  userAnswers : UserAnswers
  timers : Nat → Int
  lastActiveSection : Nat
  lockedSections : Nat → Bool
  finalScore : Option FinalScore

/-- The questions contributed by a list of section items, in document order
(a passage group contributes all its nested questions in order). -/
def flatQuestions : List SectionItem → List Question
  | [] => []
  | SectionItem.question q :: rest => q :: flatQuestions rest
  | SectionItem.group _ qs :: rest => qs ++ flatQuestions rest

/-- Flattened questions of one section; positions in this list are the
section-local question indices (`qCounter` in the source). -/
def sectionQuestions (sec : Section) : List Question :=
  flatQuestions sec.items

/-- Number of flattened questions of a section. -/
def flatLen (sec : Section) : Nat :=
  (sectionQuestions sec).length

/-! ### Model of the JavaScript `parseFloat` builtin

`parseFloat` skips leading whitespace, then reads the longest prefix that is
a signed decimal literal (optional exponent, or a signed `Infinity`) and
ignores any trailing garbage; if no prefix parses, the result is `NaN`.
We model the result exactly: `none` for `NaN`, otherwise a rational or a
signed infinity. -/

/-- A parsed JavaScript number: exact finite value or a signed infinity. -/
inductive JsNum where
  | finite (q : ℚ)
  | posInf
  | negInf
deriving DecidableEq, Repr

/-- Value of a digit string, most significant first. -/
def digitsVal (cs : List Char) : Nat :=
  cs.foldl (fun n c => 10 * n + (c.toNat - 48)) 0

/-- Parse an unsigned decimal mantissa `digits[.digits]` from the front of the
character list; returns the digit value, the number of fraction digits and
the remaining characters, or `none` when no digit is found before or after
the point. -/
def parseUnsigned (cs : List Char) : Option (Nat × Nat × List Char) :=
  let intPart := cs.takeWhile (fun c => c.isDigit)
  let rest := cs.dropWhile (fun c => c.isDigit)
  match rest with
  | '.' :: r2 =>
    let fracPart := r2.takeWhile (fun c => c.isDigit)
    let r3 := r2.dropWhile (fun c => c.isDigit)
    if intPart.isEmpty ∧ fracPart.isEmpty then none
    else some (digitsVal (intPart ++ fracPart), fracPart.length, r3)
  | _ =>
    if intPart.isEmpty then none else some (digitsVal intPart, 0, rest)

/-- Parse an optional exponent suffix `e[+-]digits` (JS treats a bare `e`
with no digits as not part of the number, leaving the exponent at 0). -/
def parseExpSuffix (cs : List Char) : Int :=
  match cs with
  | c :: r =>
    if c = 'e' ∨ c = 'E' then
      let sgnRest : Int × List Char :=
        match r with
        | '+' :: t => (1, t)
        | '-' :: t => (-1, t)
        | _ => (1, r)
      let ds := sgnRest.2.takeWhile (fun c => c.isDigit)
      if ds.isEmpty then 0 else sgnRest.1 * (digitsVal ds : Int)
    else 0
  | [] => 0

/-- Model of JS `parseFloat`: `none` is `NaN`. -/
def parseFloat (s : String) : Option JsNum :=
  let cs := s.toList.dropWhile (fun c => c.isWhitespace)
  let signRest : Int × List Char :=
    match cs with
    | '+' :: r => (1, r)
    | '-' :: r => (-1, r)
    | _ => (1, cs)
  match signRest.2 with
  | 'I' :: 'n' :: 'f' :: 'i' :: 'n' :: 'i' :: 't' :: 'y' :: _ =>
    some (if signRest.1 = 1 then JsNum.posInf else JsNum.negInf)
  | other =>
    match parseUnsigned other with
    | none => none
    | some (m, fracLen, rest) =>
      let e := parseExpSuffix rest
      let q : ℚ :=
        if 0 ≤ e then mkRat (signRest.1 * (m : Int) * (10 : Int) ^ e.toNat) ((10 : Nat) ^ fracLen)
        else mkRat (signRest.1 * (m : Int)) ((10 : Nat) ^ fracLen * (10 : Nat) ^ (-e).toNat)
      some (JsNum.finite q)

/-- JS strict equality `parseFloat(a) === parseFloat(b)`: `NaN` compares
unequal to everything, including itself. -/
def jsFloatEq (a b : Option JsNum) : Bool :=
  match a, b with
  | some x, some y => decide (x = y)
  | _, _ => false

/-- Model of JS `String.prototype.toLowerCase` (character-wise lowering). -/
def jsToLower (s : String) : String :=
  String.mk (s.data.map Char.toLower)

/-- Model of JS `String.prototype.trim` (strip whitespace at both ends). -/
def jsTrim (s : String) : String :=
  String.mk
    (((s.data.dropWhile (fun c => c.isWhitespace)).reverse.dropWhile
      (fun c => c.isWhitespace)).reverse)

/-! ### Scoring engine (`confirmAndSubmit` classification loop) -/

/-- Classification of one question by the scoring loop. -/
inductive QClass where
  | correct
  | incorrect
  | unattempted
deriving DecidableEq, Repr

/-- Per-question classification from `confirmAndSubmit`: attempted iff the
stored answer exists, is non-`null` and non-empty; then an MCQ is correct
under case-insensitive, trimmed string equality, a TITA is correct under
`parseFloat` equality, and everything else is incorrect.  This is a total
function: malformed input never raises. -/
def classify (q : Question) (ua : Option UserAnswer) : QClass :=
  match ua with
  | none => QClass.unattempted
  | some a =>
    match a.answer with
    | none => QClass.unattempted
    | some v =>
      if v = "" then QClass.unattempted
      else if q.type = QType.MCQ ∧ jsTrim (jsToLower v) = jsTrim (jsToLower q.correctAnswer) then
        QClass.correct
      else if q.type = QType.TITA ∧ jsFloatEq (parseFloat v) (parseFloat q.correctAnswer) then
        QClass.correct
      else QClass.incorrect

/-- Tally `(correct, incorrect, attempted)` over a flattened question list,
starting at section-local index `qIdx` (the source's `qCounter`). -/
def tallyFrom (answers1 : Nat → Option UserAnswer) : Nat → List Question → Nat × Nat × Nat
  | _, [] => (0, 0, 0)
  | qIdx, q :: rest =>
    let t := tallyFrom answers1 (qIdx + 1) rest
    match classify q (answers1 qIdx) with
    | QClass.correct => (t.1 + 1, t.2.1, t.2.2 + 1)
    | QClass.incorrect => (t.1, t.2.1 + 1, t.2.2 + 1)
    | QClass.unattempted => t

/-- Tally over all sections, starting at section index `sIdx`; the
section-local question counter restarts at 0 in every section, as in the
source's nested `forEach`. -/
def totalsFrom (answers : UserAnswers) : Nat → List Section → Nat × Nat × Nat
  | _, [] => (0, 0, 0)
  | sIdx, sec :: rest =>
    let here := tallyFrom (answers sIdx) 0 (sectionQuestions sec)
    let there := totalsFrom answers (sIdx + 1) rest
    (here.1 + there.1, here.2.1 + there.2.1, here.2.2 + there.2.2)

/-- The scoring engine of `confirmAndSubmit`: counts over all sections and
the test-type-dependent total
`score = 3 * correct - (type === 'Full Mock' ? incorrect : 0)`. -/
def scoreTest (sections : List Section) (answers : UserAnswers) (tt : TestType) : FinalScore :=
  let t := totalsFrom answers 0 sections
  { score := 3 * (t.1 : Int) - (if tt = TestType.fullMock then (t.2.1 : Int) else 0)
    correct := t.1
    incorrect := t.2.1
    attempted := t.2.2 }

/-! ### Analysis card classification (`QuestionAnalysisCard`) -/

/-- `QuestionAnalysisCard`'s `isCorrect`: the stored answer is a string and
equals `correctAnswer` under case-insensitive trimmed *string* comparison
(no numeric parsing, even for TITA questions). -/
def cardIsCorrect (q : Question) (ua : Option UserAnswer) : Bool :=
  match ua with
  | some a =>
    match a.answer with
    | some v => decide (jsTrim (jsToLower v) = jsTrim (jsToLower q.correctAnswer))
    | none => false
  | none => false

/-- `QuestionAnalysisCard`'s `isUnattempted`: the stored answer is `null` or
the empty string. -/
def cardIsUnattempted (ua : Option UserAnswer) : Bool :=
  match ua with
  | some a =>
    match a.answer with
    | some v => decide (v = "")
    | none => true
  | none => false

/-- The marks text displayed by the analysis card: `0` when unattempted,
`+3` when (string-)correct, `-1` otherwise. -/
def cardMarks (q : Question) (ua : Option UserAnswer) : String :=
  if cardIsUnattempted ua then "0"
  else if cardIsCorrect q ua then "+3"
  else "-1"

/-! ### The `TestView` component state -/

/-- The state of the `TestView` component: the persisted snapshot (`store`,
the `test` prop as maintained through `onUpdate`) plus the component-local
state.  The two confirmation modals are modelled as pending-action fields:
`pendingSwitch = some t` is the open section-switch modal with target `t`,
`pendingSubmit = true` is the open submit-confirmation modal. -/
structure ViewState where
  store : SavedTest
  timers : Nat → Int
  currentSection : Nat
  currentQuestion : Nat
  pendingSwitch : Option Nat
  pendingSubmit : Bool

/-- Number of sections of the test backing a view state. -/
def ViewState.numSections (s : ViewState) : Nat :=
  s.store.testData.sections.length

/-- The `lockedSections` map built by `confirmAndSubmit`'s `reduce`: every
section index in range locked, everything else absent. -/
def allLocked (n : Nat) : Nat → Bool :=
  fun i => decide (i < n)

/-- `confirmAndSubmit`, parametrised by the timer map it persists (the
closure's `timers` value at the moment of the call): scores the current
answers, locks every section, sets status `Completed` and stores the final
score; the submit-confirmation modal closes. -/
def submitWith (s : ViewState) (persisted : Nat → Int) : ViewState :=
  { s with
    pendingSubmit := false
    store := { s.store with
      finalScore := some (scoreTest s.store.testData.sections s.store.userAnswers s.store.type)
      status := TestStatus.completed
      timers := persisted
      lockedSections := allLocked s.store.testData.sections.length } }

/-- Scan for the first index in `l` that is greater than `cur` and not
locked (the `findIndex` predicate of the timer expiry branch). -/
def findNextAux (locked : Nat → Bool) (cur : Nat) : List Nat → Option Nat
  | [] => none
  | i :: rest =>
    if cur < i ∧ locked i = false then some i else findNextAux locked cur rest

/-- `sections.findIndex((_, idx) => idx > cur && !newLocked[idx])` of the
timer expiry branch, with `none` for `-1`. -/
def findNext (n cur : Nat) (locked : Nat → Bool) : Option Nat :=
  findNextAux locked cur (List.range n)

/-- One firing of the 1-second interval callback of `TestView`'s timer
`useEffect`: decrement the active section's timer when positive and
unlocked; when the (updated) time is `≤ 0` on an unlocked active section,
lock it and either advance to the next unlocked section (resetting
navigation to its first question) or, when none exists, submit
automatically.  The expiry-advance `onUpdate` carries only `lockedSections`
and `lastActiveSection` (no timer map); the automatic submission persists
the `timers` value captured by the `confirmAndSubmit` closure, i.e. the map
from before this tick's decrement. -/
def tick (s : ViewState) : ViewState :=
  let cur := s.currentSection
  let locked := s.store.lockedSections cur
  let t0 := s.timers cur
  let t1 := if 0 < t0 ∧ locked = false then t0 - 1 else t0
  let timers' : Nat → Int := fun i => if i = cur then t1 else s.timers i
  if t1 ≤ 0 ∧ locked = false then
    let newLocked : Nat → Bool := fun i => s.store.lockedSections i || decide (i = cur)
    match findNext s.store.testData.sections.length cur newLocked with
    | some next =>
      { s with
        timers := timers'
        store := { s.store with lockedSections := newLocked, lastActiveSection := next }
        currentSection := next
        currentQuestion := 0 }
    | none => submitWith { s with timers := timers' } s.timers
  else { s with timers := timers' }

/-- One firing of the periodic persistence interval: `onUpdate({ timers })`
flushes the full local timer map into the snapshot. -/
def persistFlush (s : ViewState) : ViewState :=
  { s with store := { s.store with timers := s.timers } }

/-- `handleAnswerUpdate`: overwrite the entry of the current section at the
given flattened index and mark the session `In Progress`. -/
def handleAnswerUpdate (s : ViewState) (origIdx : Nat) (newAnswer : Option String)
    (newStatus : AnswerStatus) : ViewState :=
  { s with store := { s.store with
      userAnswers := fun si qi =>
        if si = s.currentSection ∧ qi = origIdx then some ⟨newAnswer, newStatus⟩
        else s.store.userAnswers si qi
      status := TestStatus.inProgress } }

/-- The current question's stored answer entry, with the source's
`|| { answer: null, status: 'not-answered' }` default.  In the flattened
question list built by `TestView`, `originalIndex` equals the list position,
so the current question's `originalIndex` is `currentQuestion`. -/
def currentEntry (s : ViewState) : UserAnswer :=
  (s.store.userAnswers s.currentSection s.currentQuestion).getD ⟨none, AnswerStatus.notAnswered⟩

/-- `handleSelectOption`: store the clicked option; a `not-answered` question
becomes `answered`, any other status is preserved. -/
def handleSelectOption (s : ViewState) (option : String) : ViewState :=
  let st := (currentEntry s).status
  let newStatus := if st = AnswerStatus.notAnswered then AnswerStatus.answered else st
  handleAnswerUpdate s s.currentQuestion (some option) newStatus

/-- `handleTitaInputChange`: a non-empty input keeps/promotes the status as
for option selection, an empty input resets to `not-answered`; the stored
value is the trimmed input, or `null` when the trimmed input is empty
(`value.trim() || null`). -/
def handleTitaInputChange (s : ViewState) (value : String) : ViewState :=
  let st := (currentEntry s).status
  let newStatus :=
    if value ≠ "" then (if st = AnswerStatus.notAnswered then AnswerStatus.answered else st)
    else AnswerStatus.notAnswered
  let stored := if value.trim = "" then none else some value.trim
  handleAnswerUpdate s s.currentQuestion stored newStatus

/-- `handleSaveAndNext`: promote a question with a (truthy) value and a
status other than `answered` to `answered`, then advance the cursor unless
at the section's last question. -/
def handleSaveAndNext (s : ViewState) : ViewState :=
  let q := currentEntry s
  let len := flatLen ((s.store.testData.sections.getD s.currentSection ⟨"", 0, []⟩))
  let s1 :=
    match q.answer with
    | some v =>
      if v ≠ "" ∧ q.status ≠ AnswerStatus.answered then
        handleAnswerUpdate s s.currentQuestion (some v) AnswerStatus.answered
      else s
    | none => s
  if s.currentQuestion < len - 1 then { s1 with currentQuestion := s.currentQuestion + 1 }
  else s1

/-- `handleMarkForReview`: set status `marked` preserving the value, then
advance the cursor unless at the section's last question. -/
def handleMarkForReview (s : ViewState) : ViewState :=
  let q := currentEntry s
  let len := flatLen ((s.store.testData.sections.getD s.currentSection ⟨"", 0, []⟩))
  let s1 := handleAnswerUpdate s s.currentQuestion q.answer AnswerStatus.marked
  if s.currentQuestion < len - 1 then { s1 with currentQuestion := s.currentQuestion + 1 }
  else s1

/-- `handleClearResponse`: reset the current question to `null` /
`not-answered`. -/
def handleClearResponse (s : ViewState) : ViewState :=
  handleAnswerUpdate s s.currentQuestion none AnswerStatus.notAnswered

/-- `handleConfirmSectionSwitch`: lock the current section, persist the
switch together with the current timer map, move to the target section's
first question, and close the switch modal. -/
def handleConfirmSectionSwitch (s : ViewState) (targetIndex : Nat) : ViewState :=
  { s with
    store := { s.store with
      lastActiveSection := targetIndex
      lockedSections := fun i => s.store.lockedSections i || decide (i = s.currentSection)
      timers := s.timers }
    currentSection := targetIndex
    currentQuestion := 0
    pendingSwitch := none }

/-- `changeSection`: no-op when the target is the current section or already
locked; with time remaining in the current section, open the confirmation
modal; with no time remaining, switch immediately. -/
def changeSection (s : ViewState) (index : Nat) : ViewState :=
  if index = s.currentSection ∨ s.store.lockedSections index = true then s
  else if 0 < s.timers s.currentSection then { s with pendingSwitch := some index }
  else handleConfirmSectionSwitch s index

/-- Confirming the open section-switch modal runs
`handleConfirmSectionSwitch` on its target. -/
def confirmPendingSwitch (s : ViewState) : ViewState :=
  match s.pendingSwitch with
  | some t => handleConfirmSectionSwitch s t
  | none => s

/-- Cancelling the section-switch modal only closes it. -/
def cancelPendingSwitch (s : ViewState) : ViewState :=
  { s with pendingSwitch := none }

/-- `handleSubmitTest`: open the submit-confirmation modal. -/
def handleSubmitTest (s : ViewState) : ViewState :=
  { s with pendingSubmit := true }

/-- Confirming the open submit modal runs `confirmAndSubmit`, which persists
the current local timer map. -/
def confirmPendingSubmit (s : ViewState) : ViewState :=
  if s.pendingSubmit then submitWith s s.timers else s

/-- Cancelling the submit modal only closes it. -/
def cancelPendingSubmit (s : ViewState) : ViewState :=
  { s with pendingSubmit := false }

/-! ### Session creation / retest -/

/-- The freshly initialised answer map (`initialAnswers` of `handleRetest`
and of test generation): one `null` / `not-answered` entry per flattened
question index of every section. -/
def initialAnswers (sections : List Section) : UserAnswers :=
  fun sIdx qIdx =>
    if h : sIdx < sections.length then
      if qIdx < flatLen sections[sIdx] then some ⟨none, AnswerStatus.notAnswered⟩ else none
    else none

/-- The freshly seeded timer map: `timeLimit * 60` seconds per section. -/
def initialTimers (sections : List Section) : Nat → Int :=
  fun sIdx =>
    if h : sIdx < sections.length then (sections[sIdx].timeLimit : Int) * 60 else 0

/-- `handleRetest`'s construction of the new session from the original: a
deep copy with status, final score, answers, timers, active section and
locked sections reset (the new `id`/`name` are presentational and outside
the model). -/
def retest (t : SavedTest) : SavedTest :=
  { t with
    status := TestStatus.notStarted
    finalScore := none
    userAnswers := initialAnswers t.testData.sections
    timers := initialTimers t.testData.sections
    lastActiveSection := 0
    lockedSections := fun _ => false }

/-- `handleRetest` at the session-list level: the new session is appended
and every existing session, the original included, is kept as is (the
lookup of the original by `id` is abstracted to passing the found test). -/
def handleRetest (tests : List SavedTest) (t : SavedTest) : List SavedTest :=
  tests ++ [retest t]

/-! ### The operations of one test session, for the monotonicity claim -/

/-- Every state-mutating operation of the test session. -/
inductive Op where
  | tick
  | flush
  | selectOption (option : String)
  | titaInput (value : String)
  | clearResponse
  | saveAndNext
  | markForReview
  | requestSwitch (target : Nat)
  | confirmSwitch
  | cancelSwitch
  | requestSubmit
  | confirmSubmit
  | cancelSubmit

/-- Interpretation of an operation on the view state. -/
def applyOp : Op → ViewState → ViewState
  | Op.tick, s => tick s
  | Op.flush, s => persistFlush s
  | Op.selectOption o, s => handleSelectOption s o
  | Op.titaInput v, s => handleTitaInputChange s v
  | Op.clearResponse, s => handleClearResponse s
  | Op.saveAndNext, s => handleSaveAndNext s
  | Op.markForReview, s => handleMarkForReview s
  | Op.requestSwitch t, s => changeSection s t
  | Op.confirmSwitch, s => confirmPendingSwitch s
  | Op.cancelSwitch, s => cancelPendingSwitch s
  | Op.requestSubmit, s => handleSubmitTest s
  | Op.confirmSubmit, s => confirmPendingSubmit s
  | Op.cancelSubmit, s => cancelPendingSubmit s

/-! ### Lemmas about `findNext` -/

lemma findNextAux_eq_none_iff (locked : Nat → Bool) (cur : Nat) (l : List Nat) :
    findNextAux locked cur l = none ↔ ∀ i ∈ l, ¬(cur < i ∧ locked i = false) := by
  induction l with
  | nil => simp [findNextAux]
  | cons i rest ih =>
    by_cases h : cur < i ∧ locked i = false
    · simp [findNextAux, h]
    · simp only [findNextAux, if_neg h, ih, List.mem_cons]
      constructor
      · rintro hall k (rfl | hk)
        · exact h
        · exact hall k hk
      · intro hall k hk
        exact hall k (Or.inr hk)

lemma findNextAux_range' (locked : Nat → Bool) (cur : Nat) :
    ∀ (n s j : Nat),
      findNextAux locked cur (List.range' s n) = some j ↔
        (cur < j ∧ locked j = false ∧ s ≤ j ∧ j < s + n ∧
          ∀ k, s ≤ k → k < j → ¬(cur < k ∧ locked k = false)) := by
  intro n
  induction n with
  | zero =>
    intro s j
    simp [findNextAux, List.range']
    omega
  | succ n ih =>
    intro s j
    have hrange : List.range' s (n + 1) = s :: List.range' (s + 1) n := rfl
    rw [hrange]
    by_cases h : cur < s ∧ locked s = false
    · simp only [findNextAux, if_pos h, Option.some.injEq]
      constructor
      · rintro rfl
        exact ⟨h.1, h.2, le_refl _, by omega, fun k hk1 hk2 => by omega⟩
      · rintro ⟨h1, h2, h3, h4, h5⟩
        by_contra hne
        exact h5 s (le_refl _) (by omega) h
    · simp only [findNextAux, if_neg h, ih (s + 1) j]
      constructor
      · rintro ⟨h1, h2, h3, h4, h5⟩
        refine ⟨h1, h2, by omega, by omega, fun k hk1 hk2 => ?_⟩
        rcases Nat.eq_or_lt_of_le hk1 with rfl | hk
        · exact h
        · exact h5 k hk hk2
      · rintro ⟨h1, h2, h3, h4, h5⟩
        have hsj : s ≠ j := by
          rintro rfl
          exact h ⟨h1, h2⟩
        exact ⟨h1, h2, by omega, by omega, fun k hk1 hk2 => h5 k (by omega) hk2⟩

/-- `findNext` returns `some j` exactly when `j` is the lowest index greater
than `cur`, below `n`, that is not locked. -/
lemma findNext_eq_some_iff (n cur : Nat) (locked : Nat → Bool) (j : Nat) :
    findNext n cur locked = some j ↔
      (cur < j ∧ j < n ∧ locked j = false ∧
        ∀ k, cur < k → k < j → locked k = true) := by
  unfold findNext
  rw [List.range_eq_range', findNextAux_range' locked cur n 0 j]
  constructor
  · rintro ⟨h1, h2, _, h4, h5⟩
    refine ⟨h1, by omega, h2, fun k hk1 hk2 => ?_⟩
    have := h5 k (Nat.zero_le k) hk2
    cases hlk : locked k with
    | false => exact absurd ⟨hk1, hlk⟩ this
    | true => rfl
  · rintro ⟨h1, h2, h3, h4⟩
    refine ⟨h1, h3, Nat.zero_le j, by omega, fun k _ hk2 => ?_⟩
    rintro ⟨hck, hlk⟩
    rw [h4 k hck hk2] at hlk
    cases hlk

/-- `findNext` returns `none` exactly when every index greater than `cur`
and below `n` is locked. -/
lemma findNext_eq_none_iff (n cur : Nat) (locked : Nat → Bool) :
    findNext n cur locked = none ↔ ∀ k, cur < k → k < n → locked k = true := by
  unfold findNext
  rw [findNextAux_eq_none_iff]
  constructor
  · intro hall k hk1 hk2
    have := hall k (List.mem_range.mpr hk2)
    cases hlk : locked k with
    | false => exact absurd ⟨hk1, hlk⟩ this
    | true => rfl
  · intro hall k hk
    rintro ⟨hck, hlk⟩
    rw [hall k hck (List.mem_range.mp hk)] at hlk
    cases hlk

/-! ### Helper lemmas about `tick` -/

/-- A tick on a locked active section changes nothing. -/
lemma tick_of_locked (s : ViewState)
    (h : s.store.lockedSections s.currentSection = true) : tick s = s := by
  unfold tick
  simp only [h]
  have ht : (fun i => if i = s.currentSection then s.timers s.currentSection else s.timers i)
      = s.timers := by
    funext i
    by_cases hi : i = s.currentSection <;> simp [hi]
  simp [ht]

/-- A tick on an unlocked active section with more than one second left only
decrements that section's timer. -/
lemma tick_of_running (s : ViewState)
    (hcur : s.store.lockedSections s.currentSection = false)
    (ht : 1 < s.timers s.currentSection) :
    tick s = { s with timers := fun i =>
      if i = s.currentSection then s.timers s.currentSection - 1 else s.timers i } := by
  unfold tick
  simp only [hcur, and_true]
  rw [if_pos (show 0 < s.timers s.currentSection by omega),
    if_neg (show ¬(s.timers s.currentSection - 1 ≤ 0) by omega)]

/-- A tick crossing zero with a later unlocked section: lock the expired
section and advance to the found section's first question; the persisted
snapshot gets the new locks and active section but keeps its timer map. -/
lemma tick_of_expiry_advance (s : ViewState) (j : Nat)
    (hcur : s.store.lockedSections s.currentSection = false)
    (ht : s.timers s.currentSection ≤ 1)
    (hfind : findNext s.store.testData.sections.length s.currentSection
      (fun i => s.store.lockedSections i || decide (i = s.currentSection)) = some j) :
    tick s = { s with
      timers := fun i => if i = s.currentSection then
        (if 0 < s.timers s.currentSection then s.timers s.currentSection - 1
          else s.timers s.currentSection) else s.timers i
      store := { s.store with
        lockedSections := fun i => s.store.lockedSections i || decide (i = s.currentSection)
        lastActiveSection := j }
      currentSection := j
      currentQuestion := 0 } := by
  unfold tick
  simp only [hcur, and_true]
  rw [if_pos (show (if 0 < s.timers s.currentSection then s.timers s.currentSection - 1
      else s.timers s.currentSection) ≤ 0 by split <;> omega)]
  rw [hfind]

/-- A tick crossing zero with no later unlocked section: automatic
submission; the persisted timer map is the closure's pre-tick value. -/
lemma tick_of_expiry_submit (s : ViewState)
    (hcur : s.store.lockedSections s.currentSection = false)
    (ht : s.timers s.currentSection ≤ 1)
    (hfind : findNext s.store.testData.sections.length s.currentSection
      (fun i => s.store.lockedSections i || decide (i = s.currentSection)) = none) :
    tick s = submitWith { s with
      timers := fun i => if i = s.currentSection then
        (if 0 < s.timers s.currentSection then s.timers s.currentSection - 1
          else s.timers s.currentSection) else s.timers i } s.timers := by
  unfold tick
  simp only [hcur, and_true]
  rw [if_pos (show (if 0 < s.timers s.currentSection then s.timers s.currentSection - 1
      else s.timers s.currentSection) ≤ 0 by split <;> omega)]
  rw [hfind]

/-! ### Sample data used by the witnesses -/

/-- A sample MCQ question whose correct answer is `"4"`. -/
def qMCQ : Question := ⟨"2+2?", ["3", "4"], "4", QType.MCQ⟩

/-- A sample MCQ question whose correct answer is `"A"`. -/
def qPick : Question := ⟨"pick", ["A", "B"], "A", QType.MCQ⟩

/-- A sample TITA question whose correct answer is `"12.0"`. -/
def qTita : Question := ⟨"value?", [], "12.0", QType.TITA⟩

/-- A stored TITA answer `"12"`. -/
def uaTita : Option UserAnswer := some ⟨some "12", AnswerStatus.answered⟩

/-- A one-question sample section with a 1-minute limit. -/
def secA : Section := ⟨"QA", 1, [SectionItem.question qMCQ]⟩

/-- A second sample section. -/
def secB : Section := ⟨"VARC", 1, [SectionItem.question qPick]⟩

/-- A fresh snapshot over the given sections and test type. -/
def freshTest (sections : List Section) (tt : TestType) : SavedTest :=
  { type := tt
    status := TestStatus.notStarted
    testData := ⟨sections⟩
    userAnswers := initialAnswers sections
    timers := initialTimers sections
    lastActiveSection := 0
    lockedSections := fun _ => false
    finalScore := none }

/-- A running single-section view state with 60 seconds on the clock. -/
def vsOne : ViewState :=
  { store := { freshTest [secA] TestType.qa with status := TestStatus.inProgress }
    timers := initialTimers [secA]
    currentSection := 0
    currentQuestion := 0
    pendingSwitch := none
    pendingSubmit := false }

/-- A running two-section view state whose first section has 1 second left
locally while the persisted snapshot still holds the initial 60. -/
def vsTwo : ViewState :=
  { store := { freshTest [secA, secB] TestType.fullMock with status := TestStatus.inProgress }
    timers := fun i => if i = 0 then 1 else 60
    currentSection := 0
    currentQuestion := 0
    pendingSwitch := none
    pendingSubmit := false }

/-! ### Claims -/

/-- C1: for every timer tick with the session `InProgress` and the active
section unlocked, a positive remaining time decreases by exactly 1 and never
goes below 0, and the active section's index is in `lockedSections` after
the tick exactly when its remaining time has reached 0; a tick on an
already-locked active section changes nothing, so the index is added exactly
once.  (The once-per-second cadence is external scheduling and outside the
model.) -/
theorem claim_C1_tick_contract (s : ViewState)
    (_hstatus : s.store.status = TestStatus.inProgress)
    (hcur : s.store.lockedSections s.currentSection = false)
    (hn : s.currentSection < s.store.testData.sections.length) :
    (0 < s.timers s.currentSection →
      (tick s).timers s.currentSection = s.timers s.currentSection - 1) ∧
    (0 ≤ s.timers s.currentSection → 0 ≤ (tick s).timers s.currentSection) ∧
    ((tick s).store.lockedSections s.currentSection = true ↔
      s.timers s.currentSection ≤ 1) ∧
    (∀ s' : ViewState, s'.store.lockedSections s'.currentSection = true → tick s' = s') := by
  by_cases h1 : 1 < s.timers s.currentSection
  · rw [tick_of_running s hcur h1]
    refine ⟨fun _ => by simp, fun _ => by simp; omega, ?_, fun s' h => tick_of_locked s' h⟩
    simp only [hcur]
    constructor
    · intro h; cases h
    · intro h; omega
  · have ht : s.timers s.currentSection ≤ 1 := by omega
    cases hfind : findNext s.store.testData.sections.length s.currentSection
        (fun i => s.store.lockedSections i || decide (i = s.currentSection)) with
    | some j =>
      rw [tick_of_expiry_advance s j hcur ht hfind]
      refine ⟨fun h0 => by simp [h0], fun h0 => by simp; split <;> omega, ?_,
        fun s' h => tick_of_locked s' h⟩
      simp [ht]
    | none =>
      rw [tick_of_expiry_submit s hcur ht hfind]
      refine ⟨fun h0 => by simp [submitWith, h0], fun h0 => by simp [submitWith]; split <;> omega,
        ?_, fun s' h => tick_of_locked s' h⟩
      simp [submitWith, allLocked, hn, ht]

/-- Witness for C1 at a concrete running single-section state. -/
theorem claim_C1_witness :
    vsOne.store.status = TestStatus.inProgress ∧
    vsOne.store.lockedSections vsOne.currentSection = false ∧
    vsOne.currentSection < vsOne.store.testData.sections.length ∧
    ((0 < vsOne.timers vsOne.currentSection →
      (tick vsOne).timers vsOne.currentSection = vsOne.timers vsOne.currentSection - 1) ∧
    (0 ≤ vsOne.timers vsOne.currentSection → 0 ≤ (tick vsOne).timers vsOne.currentSection) ∧
    ((tick vsOne).store.lockedSections vsOne.currentSection = true ↔
      vsOne.timers vsOne.currentSection ≤ 1) ∧
    (∀ s' : ViewState, s'.store.lockedSections s'.currentSection = true → tick s' = s')) :=
  ⟨rfl, rfl, by decide, claim_C1_tick_contract vsOne rfl rfl (by decide)⟩

/-- C2: when the unlocked active section's remaining time reaches 0 on a
tick, it is locked; if some later section is unlocked, the lowest such index
becomes the active section with navigation reset to its first question; if
none exists, the session is submitted automatically in the same step —
current answers scored, every section locked, status `Completed` — with no
pending confirmation involved. -/
theorem claim_C2_expiry_transition (s : ViewState)
    (hcur : s.store.lockedSections s.currentSection = false)
    (ht : s.timers s.currentSection ≤ 1)
    (hn : s.currentSection < s.store.testData.sections.length) :
    (tick s).store.lockedSections s.currentSection = true ∧
    (∀ j, s.currentSection < j → j < s.store.testData.sections.length →
      s.store.lockedSections j = false →
      (∀ k, s.currentSection < k → k < j → s.store.lockedSections k = true) →
      (tick s).currentSection = j ∧ (tick s).currentQuestion = 0 ∧
      (tick s).store.lastActiveSection = j ∧
      (tick s).store.status = s.store.status ∧
      (tick s).store.finalScore = s.store.finalScore) ∧
    ((∀ k, s.currentSection < k → k < s.store.testData.sections.length →
        s.store.lockedSections k = true) →
      (tick s).store.status = TestStatus.completed ∧
      (tick s).store.finalScore =
        some (scoreTest s.store.testData.sections s.store.userAnswers s.store.type) ∧
      (∀ i, i < s.store.testData.sections.length →
        (tick s).store.lockedSections i = true) ∧
      (tick s).pendingSubmit = false) := by
  refine ⟨?_, ?_, ?_⟩
  · cases hfind : findNext s.store.testData.sections.length s.currentSection
        (fun i => s.store.lockedSections i || decide (i = s.currentSection)) with
    | some j =>
      rw [tick_of_expiry_advance s j hcur ht hfind]; simp
    | none =>
      rw [tick_of_expiry_submit s hcur ht hfind]
      simp [submitWith, allLocked, hn]
  · intro j hj1 hj2 hj3 hleast
    have hfind : findNext s.store.testData.sections.length s.currentSection
        (fun i => s.store.lockedSections i || decide (i = s.currentSection)) = some j := by
      rw [findNext_eq_some_iff]
      refine ⟨hj1, hj2, ?_, fun k hk1 hk2 => ?_⟩
      · simp [hj3]; omega
      · simp [hleast k hk1 hk2]
    rw [tick_of_expiry_advance s j hcur ht hfind]
    exact ⟨rfl, rfl, rfl, rfl, rfl⟩
  · intro hall
    have hfind : findNext s.store.testData.sections.length s.currentSection
        (fun i => s.store.lockedSections i || decide (i = s.currentSection)) = none := by
      rw [findNext_eq_none_iff]
      intro k hk1 hk2
      simp [hall k hk1 hk2]
    rw [tick_of_expiry_submit s hcur ht hfind]
    refine ⟨rfl, rfl, fun i hi => ?_, rfl⟩
    simp [submitWith, allLocked, hi]

/-- Witness for C2 at a concrete expiring two-section state. -/
theorem claim_C2_witness :
    vsTwo.store.lockedSections vsTwo.currentSection = false ∧
    vsTwo.timers vsTwo.currentSection ≤ 1 ∧
    vsTwo.currentSection < vsTwo.store.testData.sections.length ∧
    (tick vsTwo).store.lockedSections vsTwo.currentSection = true :=
  ⟨rfl, by decide, by decide,
    (claim_C2_expiry_transition vsTwo rfl (by decide) (by decide)).1⟩

/-- `jsFloatEq` holds exactly when both sides parse to the same number
(`NaN`, i.e. `none`, is equal to nothing). -/
lemma jsFloatEq_eq_true_iff (a b : Option JsNum) :
    jsFloatEq a b = true ↔ ∃ x, a = some x ∧ b = some x := by
  cases a with
  | none => simp [jsFloatEq]
  | some x =>
    cases b with
    | none => simp [jsFloatEq]
    | some y =>
      simp only [jsFloatEq, decide_eq_true_eq, Option.some.injEq]
      constructor
      · rintro rfl; exact ⟨x, rfl, rfl⟩
      · rintro ⟨z, rfl, rfl⟩; rfl

/-- The tally contribution of a single question. -/
lemma tallyFrom_single (f : Nat → Option UserAnswer) (k : Nat) (q : Question) :
    tallyFrom f k [q] =
      match classify q (f k) with
      | QClass.correct => (1, 0, 1)
      | QClass.incorrect => (0, 1, 1)
      | QClass.unattempted => (0, 0, 0) := by
  cases h : classify q (f k) <;> simp [tallyFrom, h]

/-- The answer map answering question 0 of section 0 with `"B"` and nothing
else. -/
def answersOneB : UserAnswers :=
  fun sIdx qIdx =>
    if sIdx = 0 ∧ qIdx = 0 then some ⟨some "B", AnswerStatus.answered⟩ else none

/-- A section whose only question is `qPick` (correct answer `"A"`). -/
def secPick : Section := ⟨"S1", 10, [SectionItem.question qPick]⟩

/-- An empty second section. -/
def secEmpty : Section := ⟨"S2", 10, []⟩

/-- C3: the total is `3 * correct`, with a further `- incorrect` exactly for
the combined multi-section type `Full Mock`; the single-section types carry
no penalty.  Concretely, a two-section Full Mock with one incorrect and no
correct answer scores `-1`, while a single-section test with the same
answers scores `0`. -/
theorem claim_C3_penalty_policy (sections : List Section) (answers : UserAnswers) :
    ((scoreTest sections answers TestType.fullMock).score =
      3 * ((scoreTest sections answers TestType.fullMock).correct : Int) -
        ((scoreTest sections answers TestType.fullMock).incorrect : Int)) ∧
    (∀ tt, tt ≠ TestType.fullMock →
      (scoreTest sections answers tt).score =
        3 * ((scoreTest sections answers tt).correct : Int)) ∧
    (scoreTest [secPick, secEmpty] answersOneB TestType.fullMock).score = -1 ∧
    (scoreTest [secPick, secEmpty] answersOneB TestType.fullMock).correct = 0 ∧
    (scoreTest [secPick, secEmpty] answersOneB TestType.fullMock).incorrect = 1 ∧
    (scoreTest [secPick] answersOneB TestType.varc).score = 0 ∧
    (scoreTest [secPick] answersOneB TestType.varc).incorrect = 1 := by
  refine ⟨by simp [scoreTest], fun tt htt => by simp [scoreTest, htt], ?_, ?_, ?_, ?_, ?_⟩
  all_goals decide

/-- Witness for C3: the non-`Full Mock` case instantiated at `VARC`. -/
theorem claim_C3_witness :
    (TestType.varc ≠ TestType.fullMock →
      (scoreTest [secPick] answersOneB TestType.varc).score =
        3 * ((scoreTest [secPick] answersOneB TestType.varc).correct : Int)) ∧
    (scoreTest [secPick] answersOneB TestType.varc).score = 0 :=
  ⟨fun h => (claim_C3_penalty_policy [secPick] answersOneB).2.1 TestType.varc h,
    (claim_C3_penalty_policy [secPick] answersOneB).2.2.2.2.2.1⟩

/-- C4: the scoring engine's per-question classification: unattempted (and
contributing nothing, not counted as attempted) exactly when the stored
answer is absent or empty; an attempted MCQ is correct exactly under
case-insensitive trimmed string equality; an attempted TITA is correct
exactly when both values parse to the same number via `parseFloat`
(non-numeric input parses to `NaN` and is therefore incorrect); every
attempted question is classified correct or incorrect, by a total function
that never raises. -/
theorem claim_C4_scoring_classification (q : Question) (ua : Option UserAnswer) :
    (classify q ua = QClass.unattempted ↔
      ∀ a, ua = some a → (a.answer = none ∨ a.answer = some "")) ∧
    (∀ a v, ua = some a → a.answer = some v → v ≠ "" →
      (classify q ua = QClass.correct ∨ classify q ua = QClass.incorrect) ∧
      (q.type = QType.MCQ →
        (classify q ua = QClass.correct ↔
          jsTrim (jsToLower v) = jsTrim (jsToLower q.correctAnswer))) ∧
      (q.type = QType.TITA →
        (classify q ua = QClass.correct ↔
          ∃ x, parseFloat v = some x ∧ parseFloat q.correctAnswer = some x))) ∧
    (classify q ua = QClass.unattempted → tallyFrom (fun _ => ua) 0 [q] = (0, 0, 0)) ∧
    (classify q ua ≠ QClass.unattempted → (tallyFrom (fun _ => ua) 0 [q]).2.2 = 1) := by
  refine ⟨?_, ?_, ?_, ?_⟩
  · cases ua with
    | none => simp [classify]
    | some a =>
      cases ha : a.answer with
      | none => simp [classify, ha]
      | some v =>
        by_cases hv : v = ""
        · subst hv; simp [classify, ha]
        · simp only [classify, ha, if_neg hv]
          constructor
          · intro h
            split at h
            · cases h
            · split at h
              · cases h
              · cases h
          · intro h
            have := h a rfl
            simp [ha, hv] at this
  · rintro a v rfl hav hv
    simp only [classify, hav, if_neg hv]
    by_cases hm : q.type = QType.MCQ ∧ jsTrim (jsToLower v) = jsTrim (jsToLower q.correctAnswer)
    · rw [if_pos hm]
      refine ⟨Or.inl rfl, fun _ => ⟨fun _ => hm.2, fun _ => rfl⟩, fun htita => ?_⟩
      rw [hm.1] at htita; cases htita
    · rw [if_neg hm]
      by_cases hti : q.type = QType.TITA ∧
          jsFloatEq (parseFloat v) (parseFloat q.correctAnswer) = true
      · rw [if_pos hti]
        refine ⟨Or.inl rfl, fun hmcq => ?_, fun _ =>
          ⟨fun _ => (jsFloatEq_eq_true_iff _ _).mp hti.2, fun _ => rfl⟩⟩
        rw [hmcq] at hti; exact absurd hti.1 (by intro h; cases h)
      · rw [if_neg hti]
        refine ⟨Or.inr rfl, fun hmcq => ?_, fun htita => ?_⟩
        · constructor
          · intro h; cases h
          · intro hstr; exact absurd ⟨hmcq, hstr⟩ hm
        · constructor
          · intro h; cases h
          · rintro ⟨x, hx1, hx2⟩
            refine absurd ⟨htita, ?_⟩ hti
            rw [jsFloatEq_eq_true_iff]
            exact ⟨x, hx1, hx2⟩
  · intro h; rw [tallyFrom_single, h]
  · intro h
    rw [tallyFrom_single]
    cases hc : classify q ua with
    | correct => rfl
    | incorrect => rfl
    | unattempted => exact absurd hc h

/-- Witness for C4 at the TITA question with answer `"12"` against
`"12.0"`. -/
theorem claim_C4_witness :
    (classify qTita uaTita = QClass.unattempted ↔
      ∀ a, uaTita = some a → (a.answer = none ∨ a.answer = some "")) ∧
    (∀ a v, uaTita = some a → a.answer = some v → v ≠ "" →
      (classify qTita uaTita = QClass.correct ∨ classify qTita uaTita = QClass.incorrect) ∧
      (qTita.type = QType.MCQ →
        (classify qTita uaTita = QClass.correct ↔
          jsTrim (jsToLower v) = jsTrim (jsToLower qTita.correctAnswer))) ∧
      (qTita.type = QType.TITA →
        (classify qTita uaTita = QClass.correct ↔
          ∃ x, parseFloat v = some x ∧ parseFloat qTita.correctAnswer = some x))) ∧
    (classify qTita uaTita = QClass.unattempted → tallyFrom (fun _ => uaTita) 0 [qTita] = (0, 0, 0)) ∧
    (classify qTita uaTita ≠ QClass.unattempted →
      (tallyFrom (fun _ => uaTita) 0 [qTita]).2.2 = 1) :=
  claim_C4_scoring_classification qTita uaTita

/-- C5: a switch request is a no-op when the target is the active section or
locked; with time left it only opens the cancelable confirmation (confirm
performs the switch, cancel merely closes the modal); with no time left it
switches immediately; and a performed switch locks the previously active
section (only ever adding locks), activates the target and resets navigation
to its first question. -/
theorem claim_C5_section_switch (s : ViewState) (target : Nat) :
    ((target = s.currentSection ∨ s.store.lockedSections target = true) →
      changeSection s target = s) ∧
    (target ≠ s.currentSection → s.store.lockedSections target = false →
      0 < s.timers s.currentSection →
      changeSection s target = { s with pendingSwitch := some target } ∧
      confirmPendingSwitch { s with pendingSwitch := some target } =
        handleConfirmSectionSwitch s target ∧
      cancelPendingSwitch { s with pendingSwitch := some target } =
        { s with pendingSwitch := none }) ∧
    (target ≠ s.currentSection → s.store.lockedSections target = false →
      s.timers s.currentSection ≤ 0 →
      changeSection s target = handleConfirmSectionSwitch s target) ∧
    ((handleConfirmSectionSwitch s target).store.lockedSections s.currentSection = true ∧
      (∀ i, s.store.lockedSections i = true →
        (handleConfirmSectionSwitch s target).store.lockedSections i = true) ∧
      (handleConfirmSectionSwitch s target).currentSection = target ∧
      (handleConfirmSectionSwitch s target).store.lastActiveSection = target ∧
      (handleConfirmSectionSwitch s target).currentQuestion = 0 ∧
      (handleConfirmSectionSwitch s target).pendingSwitch = none) := by
  refine ⟨?_, ?_, ?_, ?_, ?_, rfl, rfl, rfl, rfl⟩
  · intro h
    unfold changeSection
    rw [if_pos h]
  · intro h1 h2 h3
    unfold changeSection
    rw [if_neg (by simp [h1, h2]), if_pos h3]
    exact ⟨rfl, rfl, rfl⟩
  · intro h1 h2 h3
    unfold changeSection
    rw [if_neg (by simp [h1, h2]), if_neg (by omega)]
  · simp [handleConfirmSectionSwitch]
  · intro i hi
    simp [handleConfirmSectionSwitch, hi]

/-- Witness for C5: a no-op request to switch to the already-active section
of a concrete state. -/
theorem claim_C5_witness :
    ((0 : Nat) = vsOne.currentSection ∨ vsOne.store.lockedSections 0 = true) ∧
    changeSection vsOne 0 = vsOne :=
  ⟨Or.inl rfl, (claim_C5_section_switch vsOne 0).1 (Or.inl rfl)⟩

/-- C6: `lockedSections` is monotone under every operation of the session:
any index locked before an operation is locked after it (for submission this
uses the invariant that locked indices are in range, which every operation
preserves since only section indices are ever locked). -/
theorem claim_C6_locked_monotone (op : Op) (s : ViewState) (i : Nat)
    (hrange : ∀ j, s.store.lockedSections j = true →
      j < s.store.testData.sections.length)
    (hl : s.store.lockedSections i = true) :
    (applyOp op s).store.lockedSections i = true := by
  cases op with
  | tick =>
    show (tick s).store.lockedSections i = true
    by_cases hc : s.store.lockedSections s.currentSection = true
    · rw [tick_of_locked s hc]; exact hl
    · have hc' : s.store.lockedSections s.currentSection = false := by
        cases h : s.store.lockedSections s.currentSection
        · rfl
        · exact absurd h hc
      by_cases h1 : 1 < s.timers s.currentSection
      · rw [tick_of_running s hc' h1]; exact hl
      · have ht : s.timers s.currentSection ≤ 1 := by omega
        cases hfind : findNext s.store.testData.sections.length s.currentSection
            (fun k => s.store.lockedSections k || decide (k = s.currentSection)) with
        | some j =>
          rw [tick_of_expiry_advance s j hc' ht hfind]
          simp [hl]
        | none =>
          rw [tick_of_expiry_submit s hc' ht hfind]
          simp [submitWith, allLocked]
          exact hrange i hl
  | flush => exact hl
  | selectOption o => exact hl
  | titaInput v => exact hl
  | clearResponse => exact hl
  | saveAndNext =>
    show (handleSaveAndNext s).store.lockedSections i = true
    have hkeep : (handleSaveAndNext s).store.lockedSections = s.store.lockedSections := by
      simp only [handleSaveAndNext]
      split <;> split <;> first | rfl | (split_ifs <;> rfl)
    rw [hkeep]; exact hl
  | markForReview =>
    show (handleMarkForReview s).store.lockedSections i = true
    have hkeep : (handleMarkForReview s).store.lockedSections = s.store.lockedSections := by
      simp only [handleMarkForReview]
      split <;> rfl
    rw [hkeep]; exact hl
  | requestSwitch t =>
    show (changeSection s t).store.lockedSections i = true
    unfold changeSection
    split_ifs
    · exact hl
    · exact hl
    · simp [handleConfirmSectionSwitch, hl]
  | confirmSwitch =>
    show (confirmPendingSwitch s).store.lockedSections i = true
    unfold confirmPendingSwitch
    cases s.pendingSwitch with
    | none => exact hl
    | some t => simp [handleConfirmSectionSwitch, hl]
  | cancelSwitch => exact hl
  | requestSubmit => exact hl
  | confirmSubmit =>
    show (confirmPendingSubmit s).store.lockedSections i = true
    unfold confirmPendingSubmit
    split
    · simp [submitWith, allLocked]
      exact hrange i hl
    · exact hl
  | cancelSubmit => exact hl

/-- A two-section state whose first section is locked, with the second
active. -/
def vsLocked : ViewState :=
  { store := { freshTest [secA, secB] TestType.fullMock with
      status := TestStatus.inProgress
      lockedSections := fun j => decide (j = 0)
      lastActiveSection := 1 }
    timers := fun i => if i = 0 then 0 else 60
    currentSection := 1
    currentQuestion := 0
    pendingSwitch := none
    pendingSubmit := false }

/-- Witness for C6: a tick on `vsLocked` keeps section 0 locked. -/
theorem claim_C6_witness :
    (∀ j, vsLocked.store.lockedSections j = true →
      j < vsLocked.store.testData.sections.length) ∧
    vsLocked.store.lockedSections 0 = true ∧
    (applyOp Op.tick vsLocked).store.lockedSections 0 = true := by
  have h1 : ∀ j, vsLocked.store.lockedSections j = true →
      j < vsLocked.store.testData.sections.length := by
    intro j hj
    have : j = 0 := by simpa [vsLocked, freshTest] using hj
    simp [this, vsLocked, freshTest]
  exact ⟨h1, rfl, claim_C6_locked_monotone Op.tick vsLocked 0 h1 rfl⟩

/-- C7: selecting an option or typing a non-empty TITA value promotes a
`NotAnswered` question to `Answered` and leaves a `Marked` question
`Marked` (never demoting it), and Clear Response resets the current question
to an absent value with status `NotAnswered` whatever its prior status. -/
theorem claim_C7_status_transitions (s : ViewState) (option value : String) :
    ((currentEntry s).status = AnswerStatus.notAnswered →
      (handleSelectOption s option).store.userAnswers s.currentSection s.currentQuestion =
        some ⟨some option, AnswerStatus.answered⟩) ∧
    ((currentEntry s).status = AnswerStatus.marked →
      (handleSelectOption s option).store.userAnswers s.currentSection s.currentQuestion =
        some ⟨some option, AnswerStatus.marked⟩) ∧
    (value ≠ "" → (currentEntry s).status = AnswerStatus.notAnswered →
      ∃ stored, (handleTitaInputChange s value).store.userAnswers
          s.currentSection s.currentQuestion = some ⟨stored, AnswerStatus.answered⟩) ∧
    (value ≠ "" → (currentEntry s).status = AnswerStatus.marked →
      ∃ stored, (handleTitaInputChange s value).store.userAnswers
          s.currentSection s.currentQuestion = some ⟨stored, AnswerStatus.marked⟩) ∧
    ((handleClearResponse s).store.userAnswers s.currentSection s.currentQuestion =
      some ⟨none, AnswerStatus.notAnswered⟩) := by
  refine ⟨?_, ?_, ?_, ?_, ?_⟩
  · intro h
    simp [handleSelectOption, handleAnswerUpdate, h]
  · intro h
    simp [handleSelectOption, handleAnswerUpdate, h]
  · intro hv h
    refine ⟨if value.trim = "" then none else some value.trim, ?_⟩
    simp [handleTitaInputChange, handleAnswerUpdate, h, hv]
  · intro hv h
    refine ⟨if value.trim = "" then none else some value.trim, ?_⟩
    simp [handleTitaInputChange, handleAnswerUpdate, h, hv]
  · simp [handleClearResponse, handleAnswerUpdate]

/-- Witness for C7: selecting `"B"` on the fresh (not-answered) current
question of `vsOne` stores it as `Answered`. -/
theorem claim_C7_witness :
    (currentEntry vsOne).status = AnswerStatus.notAnswered ∧
    (handleSelectOption vsOne "B").store.userAnswers
      vsOne.currentSection vsOne.currentQuestion =
      some ⟨some "B", AnswerStatus.answered⟩ :=
  ⟨by decide, (claim_C7_status_transitions vsOne "B" "x").1 (by decide)⟩

/-- C8: retesting yields a brand-new session with the original's sections
content, status `NotStarted`, no final score, no locked section, every
answer reset to absent/`NotAnswered` on every flattened question index,
every timer reseeded to `timeLimit * 60`, and navigation at section 0; at
the session-list level the new session is appended while all existing
sessions — the original included — are kept unchanged. -/
theorem claim_C8_retest (t : SavedTest) (tests : List SavedTest) :
    (retest t).testData = t.testData ∧
    (retest t).type = t.type ∧
    (retest t).status = TestStatus.notStarted ∧
    (retest t).finalScore = none ∧
    (∀ i, (retest t).lockedSections i = false) ∧
    (retest t).lastActiveSection = 0 ∧
    (∀ sIdx (h : sIdx < t.testData.sections.length),
      (retest t).timers sIdx = (t.testData.sections[sIdx].timeLimit : Int) * 60) ∧
    (∀ sIdx qIdx (h : sIdx < t.testData.sections.length),
      qIdx < flatLen t.testData.sections[sIdx] →
      (retest t).userAnswers sIdx qIdx = some ⟨none, AnswerStatus.notAnswered⟩) ∧
    (handleRetest tests t).take tests.length = tests ∧
    retest t ∈ handleRetest tests t := by
  refine ⟨rfl, rfl, rfl, rfl, fun i => rfl, rfl, ?_, ?_, ?_, ?_⟩
  · intro sIdx h
    simp [retest, initialTimers, h]
  · intro sIdx qIdx h hq
    simp [retest, initialAnswers, h, hq]
  · exact List.take_left tests [retest t]
  · exact List.mem_append_right tests (List.mem_singleton.mpr rfl)

/-- Witness for C8: retesting a completed two-section test reseeds section
0's timer and clears its first answer. -/
theorem claim_C8_witness :
    (0 : Nat) < (freshTest [secA, secB] TestType.fullMock).testData.sections.length ∧
    (retest (freshTest [secA, secB] TestType.fullMock)).timers 0 =
      (((freshTest [secA, secB] TestType.fullMock).testData.sections.getD 0
        ⟨"", 0, []⟩).timeLimit : Int) * 60 ∧
    (retest (freshTest [secA, secB] TestType.fullMock)).userAnswers 0 0 =
      some ⟨none, AnswerStatus.notAnswered⟩ :=
  ⟨by decide,
    (claim_C8_retest (freshTest [secA, secB] TestType.fullMock) []).2.2.2.2.2.2.1 0 (by decide),
    (claim_C8_retest (freshTest [secA, secB] TestType.fullMock) []).2.2.2.2.2.2.2.1 0 0
      (by decide) (by decide)⟩

/-- C9 counterexample: on a timer-expiry section advance the snapshot is
persisted *without* the current timer map — after `tick` on `vsTwo` the
store records the transition (section 0 locked, active section 1) but its
timer entry for section 0 still holds the stale 60, not the current 0. -/
theorem claim_C9_counterexample :
    (tick vsTwo).store.lastActiveSection = 1 ∧
    (tick vsTwo).store.lockedSections 0 = true ∧
    (tick vsTwo).store.status = TestStatus.inProgress ∧
    ¬((tick vsTwo).store.timers 0 = (tick vsTwo).timers 0) := by
  refine ⟨?_, ?_, ?_, ?_⟩ <;> decide

/-- C9 (amended): the full timer map is flushed to the snapshot by the
periodic persistence interval, by a voluntary confirmed section switch and
by manual submission (each with the current local values); the timer-expiry
advance persists locks and active section but leaves the snapshot's timer
map untouched, and automatic submission persists the pre-tick timer map. -/
theorem claim_C9_persistence (s : ViewState) :
    (∀ i, (persistFlush s).store.timers i = s.timers i) ∧
    (∀ target i, (handleConfirmSectionSwitch s target).store.timers i = s.timers i) ∧
    (s.pendingSubmit = true → ∀ i, (confirmPendingSubmit s).store.timers i = s.timers i) ∧
    (∀ j, s.store.lockedSections s.currentSection = false →
      s.timers s.currentSection ≤ 1 →
      findNext s.store.testData.sections.length s.currentSection
        (fun k => s.store.lockedSections k || decide (k = s.currentSection)) = some j →
      (tick s).store.timers = s.store.timers) ∧
    (s.store.lockedSections s.currentSection = false →
      s.timers s.currentSection ≤ 1 →
      findNext s.store.testData.sections.length s.currentSection
        (fun k => s.store.lockedSections k || decide (k = s.currentSection)) = none →
      (tick s).store.timers = s.timers) := by
  refine ⟨fun i => rfl, fun target i => rfl, ?_, ?_, ?_⟩
  · intro h i
    simp [confirmPendingSubmit, h, submitWith]
  · intro j hcur ht hfind
    rw [tick_of_expiry_advance s j hcur ht hfind]
  · intro hcur ht hfind
    rw [tick_of_expiry_submit s hcur ht hfind]
    rfl

/-- Witness for C9 at concrete states: a flush persists the current map and
a concrete expiry advance leaves the persisted map unchanged. -/
theorem claim_C9_witness :
    (persistFlush vsOne).store.timers 0 = vsOne.timers 0 ∧
    (vsTwo.store.lockedSections vsTwo.currentSection = false ∧
      vsTwo.timers vsTwo.currentSection ≤ 1 ∧
      findNext vsTwo.store.testData.sections.length vsTwo.currentSection
        (fun k => vsTwo.store.lockedSections k || decide (k = vsTwo.currentSection)) = some 1) ∧
    (tick vsTwo).store.timers = vsTwo.store.timers :=
  ⟨(claim_C9_persistence vsOne).1 0,
    ⟨rfl, by decide, by decide⟩,
    (claim_C9_persistence vsTwo).2.2.2.1 1 rfl (by decide) (by decide)⟩

/-- C10: the analysis card classifies by trimmed case-insensitive *string*
equality only, while the scoring engine compares TITA answers numerically;
on the TITA question with `correctAnswer = "12.0"` and stored answer
`"12"`, scoring counts correct but the card classifies it as attempted and
incorrect, displaying `-1`. -/
theorem claim_C10_analysis_divergence :
    classify qTita uaTita = QClass.correct ∧
    cardIsCorrect qTita uaTita = false ∧
    cardIsUnattempted uaTita = false ∧
    cardMarks qTita uaTita = "-1" ∧
    (∀ (q : Question) (a : UserAnswer) (v : String), a.answer = some v →
      (cardIsCorrect q (some a) = true ↔
        jsTrim (jsToLower v) = jsTrim (jsToLower q.correctAnswer))) := by
  refine ⟨by decide, by decide, by decide, by decide, ?_⟩
  intro q a v hv
  simp [cardIsCorrect, hv]

/-- Witness for C10: the card's string-equality characterisation
instantiated at the concrete TITA answer. -/
theorem claim_C10_witness :
    cardIsCorrect qTita (some ⟨some "12", AnswerStatus.answered⟩) = true ↔
      jsTrim (jsToLower "12") = jsTrim (jsToLower qTita.correctAnswer) :=
  claim_C10_analysis_divergence.2.2.2.2 qTita ⟨some "12", AnswerStatus.answered⟩ "12" rfl

end CatMocks
